import Mathlib

/-!
Shallow embedding of the banking domain model of `src/exercício2.py`
(classes `Conta`, `ContaCorrente`, `Historico`, `Transacao`, `Saque`,
`Deposito`, and the registry functions `filtrar_cliente`, `criar_cliente`,
`criar_conta` together with the account-numbering line of `main`).

Modelling conventions:
- Monetary amounts (`valor`, `saldo`, `limite`) are `Int`; the Python code
  uses numbers read from input and the claims only concern their ordered-ring
  behaviour.
- A `Historico` entry is the dict appended by `Historico.adicionar_transacao`:
  `{"tipo": type(t).__name__, "valor": t.valor, "data": ...}`.  The `data`
  field is a wall-clock timestamp string (an I/O effect) inspected by no
  domain logic, so it is omitted from the record.
- The printed failure messages of `sacar`/`depositar` are modelled by the
  `Motivo` result tag (one constructor per distinct message); the Python
  boolean return value is recovered by `Motivo.sucesso`.
- The back-reference `Conta._cliente` and the owner's list
  `Cliente.contas` are only read by display code (`__str__`,
  `recuperar_conta_cliente`), never by the balance/history logic the claims
  are about, so accounts do not carry the owner here.
-/

namespace SistemaBanco

/-- One entry of `Historico._transacoes`: the dict built by
`Historico.adicionar_transacao` (timestamp field omitted, see header). -/
structure Entrada where
  tipo : String
  valor : Int
deriving DecidableEq

/-- The two concrete subclasses of the abstract class `Transacao`:
`Deposito(valor)` and `Saque(valor)`. -/
inductive Transacao where
  | deposito (valor : Int)
  | saque (valor : Int)
deriving DecidableEq

/-- `transacao.valor` (the `valor` property of `Saque` / `Deposito`). -/
def Transacao.valor : Transacao → Int
  | .deposito v => v
  | .saque v => v

/-- `type(transacao).__name__`, as stored in the `"tipo"` field of a
history entry. -/
def Transacao.typeName : Transacao → String
  | .deposito _ => "Deposito"
  | .saque _ => "Saque"

/-- `Historico.adicionar_transacao`: appends the dict
`{"tipo": type(t).__name__, "valor": t.valor, "data": now()}` to the list. -/
def adicionar_transacao (transacoes : List Entrada) (t : Transacao) : List Entrada :=
  transacoes ++ [{ tipo := t.typeName, valor := t.valor }]

/-- Result tag of a `sacar` call; each rejecting constructor corresponds to
one of the distinct `@@@ Operação falhou! ... @@@` messages, `ok` to the
success message.  The Python `bool` return value is `Motivo.sucesso`. -/
inductive Motivo where
  | ok
  | valorInvalido
  | saldoInsuficiente
  | excedeLimite
  | excedeSaques
  | excedeDisponivel
deriving DecidableEq

/-- The boolean actually returned by the Python `sacar` methods. -/
def Motivo.sucesso : Motivo → Bool
  | .ok => true
  | _ => false

/-- The state of a base-class `Conta`: `_saldo`, `_numero`, `_agencia`,
`_historico` (the owning client is display-only, see header). -/
structure Conta where
  saldo : Int
  numero : Nat
  agencia : String
  historico : List Entrada
deriving DecidableEq

/-- `Conta.__init__` / `Conta.nova_conta`: `_saldo = 0`, `_agencia = "0001"`,
fresh empty `Historico`. -/
def Conta.nova (numero : Nat) : Conta :=
  { saldo := 0, numero := numero, agencia := "0001", historico := [] }

/-- `Conta.sacar`: rejects `valor <= 0`, rejects `valor > saldo`, otherwise
`saldo -= valor`. -/
def Conta.sacar (c : Conta) (valor : Int) : Motivo × Conta :=
  if valor ≤ 0 then (.valorInvalido, c)
  else if valor > c.saldo then (.saldoInsuficiente, c)
  else (.ok, { c with saldo := c.saldo - valor })

/-- `Conta.depositar`: rejects `valor <= 0`, otherwise `saldo += valor`.
Returns the Python boolean. -/
def Conta.depositar (c : Conta) (valor : Int) : Bool × Conta :=
  if valor ≤ 0 then (false, c)
  else (true, { c with saldo := c.saldo + valor })

/-- The state of a `ContaCorrente`: the inherited `Conta` fields plus
`_limite` (default 500) and `_limite_saques` (default 3). -/
structure ContaCorrente where
  saldo : Int
  numero : Nat
  agencia : String
  historico : List Entrada
  limite : Int
  limite_saques : Nat
deriving DecidableEq

/-- `ContaCorrente.__init__` with the default arguments
(`limite=500`, `limite_saques=3`), as used by
`ContaCorrente.nova_conta(cliente, numero)` in `criar_conta`. -/
def ContaCorrente.nova (numero : Nat) : ContaCorrente :=
  { saldo := 0, numero := numero, agencia := "0001", historico := [],
    limite := 500, limite_saques := 3 }

/-- The test `isinstance(t, Saque)` performed by `ContaCorrente.sacar` on
each element `t` of `self.historico.transacoes`.  Those elements are the
dicts appended by `Historico.adicionar_transacao` — nothing in the program
ever puts a `Saque` object into the list — so the test is `False` on every
entry. -/
def isinstanceSaque (_ : Entrada) : Bool := false

/-- `ContaCorrente.sacar`: the four stacked checks of the source, in source
order — `valor <= 0`; `valor > _limite`; recorded-withdrawal count
`>= _limite_saques` (via `isinstance`, see `isinstanceSaque`);
`valor > saldo + _limite` — else `saldo -= valor`. -/
def ContaCorrente.sacar (c : ContaCorrente) (valor : Int) : Motivo × ContaCorrente :=
  if valor ≤ 0 then (.valorInvalido, c)
  else if valor > c.limite then (.excedeLimite, c)
  else if (c.historico.filter (fun t => isinstanceSaque t)).length ≥ c.limite_saques then
    (.excedeSaques, c)
  else if valor > c.saldo + c.limite then (.excedeDisponivel, c)
  else (.ok, { c with saldo := c.saldo - valor })

/-- `Conta.depositar` as inherited (not overridden) by `ContaCorrente`. -/
def ContaCorrente.depositar (c : ContaCorrente) (valor : Int) : Bool × ContaCorrente :=
  if valor ≤ 0 then (false, c)
  else (true, { c with saldo := c.saldo + valor })

/-- `Saque.registrar(conta)` for a base `Conta`:
`sucesso = conta.sacar(valor); if sucesso: conta.historico.adicionar_transacao(self)`. -/
def Saque.registrar (valor : Int) (conta : Conta) : Conta :=
  let r := Conta.sacar conta valor
  if (r.1).sucesso then
    { r.2 with historico := adicionar_transacao (r.2).historico (.saque valor) }
  else r.2

/-- `Saque.registrar(conta)` when `conta` is a `ContaCorrente` (dynamic
dispatch selects `ContaCorrente.sacar`). -/
def Saque.registrarCC (valor : Int) (conta : ContaCorrente) : ContaCorrente :=
  let r := ContaCorrente.sacar conta valor
  if (r.1).sucesso then
    { r.2 with historico := adicionar_transacao (r.2).historico (.saque valor) }
  else r.2

/-- `Deposito.registrar(conta)` for a base `Conta`.  The source body is the
single line `conta.historico.adicionar_transacao(self)`: it never calls
`conta.depositar` and performs no check on the amount. -/
def Deposito.registrar (valor : Int) (conta : Conta) : Conta :=
  { conta with historico := adicionar_transacao conta.historico (.deposito valor) }

/-- `Deposito.registrar(conta)` when `conta` is a `ContaCorrente` (the body
is the same single `adicionar_transacao` line). -/
def Deposito.registrarCC (valor : Int) (conta : ContaCorrente) : ContaCorrente :=
  { conta with historico := adicionar_transacao conta.historico (.deposito valor) }

/-- `Cliente.realizar_transacao(conta, transacao)` = `transacao.registrar(conta)`,
for a base `Conta`. -/
def realizar_transacao (conta : Conta) (t : Transacao) : Conta :=
  match t with
  | .deposito v => Deposito.registrar v conta
  | .saque v => Saque.registrar v conta

/-- `Cliente.realizar_transacao(conta, transacao)` for a `ContaCorrente`. -/
def realizar_transacaoCC (conta : ContaCorrente) (t : Transacao) : ContaCorrente :=
  match t with
  | .deposito v => Deposito.registrarCC v conta
  | .saque v => Saque.registrarCC v conta

/-- Sum of the `valor` fields of the `"Deposito"`-tagged entries of a
history (the successfully recorded deposits). -/
def somaDepositos (h : List Entrada) : Int :=
  (h.filter (fun e => e.tipo == "Deposito")).foldl (fun s e => s + e.valor) 0

/-- Sum of the `valor` fields of the `"Saque"`-tagged entries of a
history (the successfully recorded withdrawals). -/
def somaSaques (h : List Entrada) : Int :=
  (h.filter (fun e => e.tipo == "Saque")).foldl (fun s e => s + e.valor) 0

/-- `PessoaFisica`: the client data read by `criar_cliente` (its `contas`
list is the display-only owner back-reference, see header). -/
structure PessoaFisica where
  nome : String
  data_nascimento : String
  cpf : String
  endereco : String
deriving DecidableEq

/-- `filtrar_cliente(cpf, clientes)`: first client whose `cpf` matches,
`None` when there is none. -/
def filtrar_cliente (cpf : String) (clientes : List PessoaFisica) : Option PessoaFisica :=
  (clientes.filter (fun cliente => cliente.cpf == cpf)).head?

/-- The registry state of `main`: the process-scoped lists `clientes` and
`contas`. -/
structure Banco where
  clientes : List PessoaFisica
  contas : List ContaCorrente
deriving DecidableEq

/-- `criar_cliente(clientes)`: rejected when `filtrar_cliente` already finds
the CPF, otherwise the new `PessoaFisica` is appended. -/
def criar_cliente (b : Banco) (p : PessoaFisica) : Banco :=
  match filtrar_cliente p.cpf b.clientes with
  | some _ => b
  | none => { b with clientes := b.clientes ++ [p] }

/-- `criar_conta(numero_conta, clientes, contas)`: aborts when the CPF is
unknown, otherwise appends `ContaCorrente.nova_conta(cliente, numero_conta)`
to `contas` (and to the owner's display-only list, not modelled). -/
def criar_conta (numero_conta : Nat) (cpf : String) (b : Banco) : Banco :=
  match filtrar_cliente cpf b.clientes with
  | none => b
  | some _ => { b with contas := b.contas ++ [ContaCorrente.nova numero_conta] }

/-- The menu operations of `main` that touch the registries.  The deposit,
withdrawal and statement options mutate only `saldo`/`historico` of an
already-registered account and never add, remove or renumber accounts. -/
inductive Op where
  | novoUsuario (p : PessoaFisica)
  | novaConta (cpf : String)
deriving DecidableEq

/-- One iteration of the `main` loop on a registry-touching option; for
`"nc"` the number passed to `criar_conta` is `len(contas) + 1`. -/
def passo (b : Banco) : Op → Banco
  | .novoUsuario p => criar_cliente b p
  | .novaConta cpf => criar_conta (b.contas.length + 1) cpf b

/-- Running `main` from its initial empty registries over a list of menu
operations. -/
def executar (ops : List Op) : Banco :=
  ops.foldl passo { clientes := [], contas := [] }

/-- A freshly created checking account after three applied `Saque(100)`
transactions (all three succeed and are recorded). -/
def contaAposTresSaques : ContaCorrente :=
  [Transacao.saque 100, Transacao.saque 100, Transacao.saque 100].foldl
    realizar_transacaoCC (ContaCorrente.nova 1)

/-- A checking account with the default limits and balance 10000. -/
def contaSaldoDezMil : ContaCorrente :=
  { saldo := 10000, numero := 1, agencia := "0001", historico := [],
    limite := 500, limite_saques := 3 }

/- Helper lemmas about the withdrawal and registry operations. -/

/-- `ContaCorrente.sacar` never changes `limite`. -/
theorem ContaCorrente.sacar_limite (c : ContaCorrente) (v : Int) :
    ((ContaCorrente.sacar c v).2).limite = c.limite := by
  unfold ContaCorrente.sacar
  split_ifs <;> rfl

/-- `ContaCorrente.sacar` never changes `historico`. -/
theorem ContaCorrente.sacar_historico (c : ContaCorrente) (v : Int) :
    ((ContaCorrente.sacar c v).2).historico = c.historico := by
  unfold ContaCorrente.sacar
  split_ifs <;> rfl

/-- When `ContaCorrente.sacar` rejects, the returned account is exactly the
input account. -/
theorem ContaCorrente.sacar_falha (c : ContaCorrente) (v : Int)
    (h : ((ContaCorrente.sacar c v).1).sucesso = false) :
    (ContaCorrente.sacar c v).2 = c := by
  unfold ContaCorrente.sacar at *
  split_ifs at h ⊢ <;> first | rfl | simp [Motivo.sucesso] at h

/-- When `ContaCorrente.sacar` succeeds the new balance is the old one minus
the amount, and the amount fits inside `saldo + limite`. -/
theorem ContaCorrente.sacar_ok (c : ContaCorrente) (v : Int)
    (h : ((ContaCorrente.sacar c v).1).sucesso = true) :
    ((ContaCorrente.sacar c v).2).saldo = c.saldo - v ∧ 0 < v ∧ v ≤ c.saldo + c.limite := by
  unfold ContaCorrente.sacar at *
  split_ifs at h ⊢ with h1 h2 h3 h4
  · simp [Motivo.sucesso] at h
  · simp [Motivo.sucesso] at h
  · simp [Motivo.sucesso] at h
  · simp [Motivo.sucesso] at h
  · exact ⟨rfl, by omega, by omega⟩

/-- `Conta.sacar` never changes `historico`. -/
theorem Conta.sacar_base_historico (c : Conta) (v : Int) :
    ((Conta.sacar c v).2).historico = c.historico := by
  unfold Conta.sacar
  split_ifs <;> rfl

/-- When `Conta.sacar` rejects, the returned account is exactly the input
account. -/
theorem Conta.sacar_base_falha (c : Conta) (v : Int)
    (h : ((Conta.sacar c v).1).sucesso = false) :
    (Conta.sacar c v).2 = c := by
  unfold Conta.sacar at *
  split_ifs at h ⊢ <;> first | rfl | simp [Motivo.sucesso] at h

/-- When `Conta.sacar` succeeds the new balance is the old one minus the
amount, which is positive and bounded by the old balance. -/
theorem Conta.sacar_base_ok (c : Conta) (v : Int)
    (h : ((Conta.sacar c v).1).sucesso = true) :
    ((Conta.sacar c v).2).saldo = c.saldo - v ∧ 0 < v ∧ v ≤ c.saldo := by
  unfold Conta.sacar at *
  split_ifs at h ⊢ with h1 h2
  · simp [Motivo.sucesso] at h
  · simp [Motivo.sucesso] at h
  · exact ⟨rfl, by omega, by omega⟩

/-- One applied transaction never changes a checking account's `limite`. -/
theorem realizar_transacaoCC_limite (cc : ContaCorrente) (t : Transacao) :
    (realizar_transacaoCC cc t).limite = cc.limite := by
  cases t with
  | deposito v => rfl
  | saque v =>
    show (Saque.registrarCC v cc).limite = cc.limite
    simp only [Saque.registrarCC]
    split_ifs <;> simp [ContaCorrente.sacar_limite]

/-- One applied transaction keeps a checking account's balance at or above
`-limite` (deposits do not touch the balance at all; a successful
withdrawal is bounded by check 4). -/
theorem piso_saldo_cc_step (cc : ContaCorrente) (t : Transacao)
    (h : -cc.limite ≤ cc.saldo) :
    -(realizar_transacaoCC cc t).limite ≤ (realizar_transacaoCC cc t).saldo := by
  cases t with
  | deposito v => simpa [realizar_transacaoCC, Deposito.registrarCC] using h
  | saque v =>
    show -(Saque.registrarCC v cc).limite ≤ (Saque.registrarCC v cc).saldo
    simp only [Saque.registrarCC]
    rcases hs : ((ContaCorrente.sacar cc v).1).sucesso with _ | _
    · simp only [hs, Bool.false_eq_true, if_false]
      rw [ContaCorrente.sacar_falha cc v hs]
      exact h
    · obtain ⟨h1, h2, h3⟩ := ContaCorrente.sacar_ok cc v hs
      simp only [hs, if_true]
      show -(((ContaCorrente.sacar cc v).2)).limite ≤ ((ContaCorrente.sacar cc v).2).saldo
      rw [ContaCorrente.sacar_limite, h1]
      omega

/-- One applied transaction keeps a base account's balance non-negative. -/
theorem piso_saldo_step (c : Conta) (t : Transacao) (h : 0 ≤ c.saldo) :
    0 ≤ (realizar_transacao c t).saldo := by
  cases t with
  | deposito v => simpa [realizar_transacao, Deposito.registrar] using h
  | saque v =>
    show 0 ≤ (Saque.registrar v c).saldo
    simp only [Saque.registrar]
    rcases hs : ((Conta.sacar c v).1).sucesso with _ | _
    · simp only [hs, Bool.false_eq_true, if_false]
      rw [Conta.sacar_base_falha c v hs]
      exact h
    · obtain ⟨h1, h2, h3⟩ := Conta.sacar_base_ok c v hs
      simp only [hs, if_true]
      show 0 ≤ ((Conta.sacar c v).2).saldo
      omega

/-- Folding transactions keeps a checking account's balance at or above the
(unchanged) `-limite`. -/
theorem piso_saldo_cc_fold (ts : List Transacao) (cc : ContaCorrente)
    (h : -cc.limite ≤ cc.saldo) :
    -cc.limite ≤ (ts.foldl realizar_transacaoCC cc).saldo := by
  induction ts generalizing cc with
  | nil => exact h
  | cons t ts ih =>
    have hrec := ih (realizar_transacaoCC cc t) (piso_saldo_cc_step cc t h)
    rw [realizar_transacaoCC_limite] at hrec
    simpa using hrec

/-- Folding transactions keeps a base account's balance non-negative. -/
theorem piso_saldo_fold (ts : List Transacao) (c : Conta) (h : 0 ≤ c.saldo) :
    0 ≤ (ts.foldl realizar_transacao c).saldo := by
  induction ts generalizing c with
  | nil => exact h
  | cons t ts ih => exact ih (realizar_transacao c t) (piso_saldo_step c t h)

/-- `passo` preserves the "numbers are 1, 2, ..., n" shape of `contas`. -/
theorem numeros_passo (b : Banco) (op : Op)
    (h : b.contas.map (fun conta => conta.numero) = List.range' 1 b.contas.length) :
    (passo b op).contas.map (fun conta => conta.numero) =
      List.range' 1 (passo b op).contas.length := by
  cases op with
  | novoUsuario p =>
    have hc : (passo b (Op.novoUsuario p)).contas = b.contas := by
      simp only [passo, criar_cliente]
      cases filtrar_cliente p.cpf b.clientes <;> rfl
    rw [hc]
    exact h
  | novaConta cpf =>
    rcases hf : filtrar_cliente cpf b.clientes with _ | cl
    · have hc : (passo b (Op.novaConta cpf)).contas = b.contas := by
        simp [passo, criar_conta, hf]
      rw [hc]
      exact h
    · have hc : (passo b (Op.novaConta cpf)).contas =
          b.contas ++ [ContaCorrente.nova (b.contas.length + 1)] := by
        simp [passo, criar_conta, hf]
      have hconcat : List.range' 1 (b.contas.length + 1) =
          List.range' 1 b.contas.length ++ [b.contas.length + 1] := by
        have hr := @List.range'_concat 1 1 b.contas.length
        have he : 1 + 1 * b.contas.length = b.contas.length + 1 := by omega
        rw [he] at hr
        exact hr
      rw [hc, List.map_append, h]
      simp [ContaCorrente.nova, hconcat]

/-- From the empty registry, any run of menu operations leaves `contas`
numbered 1, 2, ..., n. -/
theorem numeros_executar_aux (ops : List Op) (b : Banco)
    (h : b.contas.map (fun conta => conta.numero) = List.range' 1 b.contas.length) :
    (ops.foldl passo b).contas.map (fun conta => conta.numero) =
      List.range' 1 (ops.foldl passo b).contas.length := by
  induction ops generalizing b with
  | nil => exact h
  | cons op ops ih => exact ih (passo b op) (numeros_passo b op h)

/-- `passo` preserves "every registered account has the default checking
parameters". -/
theorem corrente_passo (b : Banco) (op : Op)
    (h : (b.contas.all fun conta => conta.limite == 500 && conta.limite_saques == 3) = true) :
    ((passo b op).contas.all fun conta => conta.limite == 500 && conta.limite_saques == 3)
      = true := by
  cases op with
  | novoUsuario p =>
    have hc : (passo b (Op.novoUsuario p)).contas = b.contas := by
      simp only [passo, criar_cliente]
      cases filtrar_cliente p.cpf b.clientes <;> rfl
    rw [hc]
    exact h
  | novaConta cpf =>
    rcases hf : filtrar_cliente cpf b.clientes with _ | cl
    · have hc : (passo b (Op.novaConta cpf)).contas = b.contas := by
        simp [passo, criar_conta, hf]
      rw [hc]
      exact h
    · have hc : (passo b (Op.novaConta cpf)).contas =
          b.contas ++ [ContaCorrente.nova (b.contas.length + 1)] := by
        simp [passo, criar_conta, hf]
      rw [hc]
      simp [ContaCorrente.nova, h]

/-- Fold version of `corrente_passo`. -/
theorem corrente_executar_aux (ops : List Op) (b : Banco)
    (h : (b.contas.all fun conta => conta.limite == 500 && conta.limite_saques == 3) = true) :
    (((ops.foldl passo b).contas.all
      fun conta => conta.limite == 500 && conta.limite_saques == 3)) = true := by
  induction ops generalizing b with
  | nil => exact h
  | cons op ops ih => exact ih (passo b op) (corrente_passo b op h)

/- Claim theorems. -/

/-- Claim C1, evaluated at the failing input: the claim says a positive
`Deposito` increases the balance by its amount; the code's
`Deposito.registrar` never calls `conta.depositar`, so a `Deposito(100)`
applied to a freshly created account appends the history entry but leaves
the balance at 0. -/
theorem claim_C1_deposito_nao_altera_saldo :
    (Deposito.registrarCC 100 (ContaCorrente.nova 1)).saldo = 0 ∧
    (Deposito.registrarCC 100 (ContaCorrente.nova 1)).historico =
      [{ tipo := "Deposito", valor := 100 }] := by
  exact ⟨rfl, rfl⟩

/-- Claim C2, evaluated at the failing input: after three recorded
withdrawals on a fresh default checking account (`limite_saques = 3`), the
claim says any further withdrawal is rejected; because
`isinstance(t, Saque)` is `False` on the dict entries of the history, the
count gate never fires and the fourth withdrawal of 100 succeeds, moving
the balance from -300 to -400. -/
theorem claim_C2_quarto_saque_passa :
    (contaAposTresSaques.historico.filter (fun e => e.tipo == "Saque")).length = 3 ∧
    contaAposTresSaques.saldo = -300 ∧
    (ContaCorrente.sacar contaAposTresSaques 100).1 = Motivo.ok ∧
    ((ContaCorrente.sacar contaAposTresSaques 100).2).saldo = -400 := by
  exact ⟨rfl, rfl, rfl, rfl⟩

/-- Claim C3, evaluated at the failing input: the claim says the balance
equals recorded deposits minus recorded withdrawals; after the single
applied `Deposito(100)` the history records a deposit sum of 100 and a
withdrawal sum of 0, yet the balance is still 0 because
`Deposito.registrar` never mutates it. -/
theorem claim_C3_saldo_diverge_da_soma :
    somaDepositos (Deposito.registrarCC 100 (ContaCorrente.nova 1)).historico = 100 ∧
    somaSaques (Deposito.registrarCC 100 (ContaCorrente.nova 1)).historico = 0 ∧
    (Deposito.registrarCC 100 (ContaCorrente.nova 1)).saldo = 0 ∧
    (Deposito.registrarCC 100 (ContaCorrente.nova 1)).saldo ≠
      somaDepositos (Deposito.registrarCC 100 (ContaCorrente.nova 1)).historico -
        somaSaques (Deposito.registrarCC 100 (ContaCorrente.nova 1)).historico := by
  refine ⟨rfl, rfl, rfl, ?_⟩
  decide

/-- Claim C4, evaluated at the failing input: the claim says a `Deposito`
with amount ≤ 0 appends nothing to the history; the code's
`Deposito.registrar` appends unconditionally (it performs no amount check),
so `Deposito(-5)` on a fresh account leaves the balance at 0 but grows the
history to one entry. -/
theorem claim_C4_deposito_invalido_registrado :
    (Deposito.registrarCC (-5) (ContaCorrente.nova 1)).saldo = 0 ∧
    (Deposito.registrarCC (-5) (ContaCorrente.nova 1)).historico.length = 1 := by
  exact ⟨rfl, rfl⟩

/-- Claim C5: for every account whose balance is at or above its floor
(0 for a base `Conta`, `-limite` for a `ContaCorrente` — every freshly
created account starts at 0), after any finite sequence of applied deposit
and withdrawal transactions the balance is still at or above that floor. -/
theorem claim_C5_piso_do_saldo (c : Conta) (cc : ContaCorrente)
    (ts us : List Transacao) (hc : 0 ≤ c.saldo) (hcc : -cc.limite ≤ cc.saldo) :
    0 ≤ (ts.foldl realizar_transacao c).saldo ∧
    -cc.limite ≤ (us.foldl realizar_transacaoCC cc).saldo :=
  ⟨piso_saldo_fold ts c hc, piso_saldo_cc_fold us cc hcc⟩

/-- Witness for C5 at concrete inputs: fresh accounts and concrete
transaction lists. -/
theorem claim_C5_piso_do_saldo_witness :
    0 ≤ (([Transacao.deposito 100, Transacao.saque 50]).foldl
      realizar_transacao (Conta.nova 1)).saldo ∧
    -(ContaCorrente.nova 2).limite ≤ (([Transacao.saque 500, Transacao.saque 500]).foldl
      realizar_transacaoCC (ContaCorrente.nova 2)).saldo :=
  claim_C5_piso_do_saldo (Conta.nova 1) (ContaCorrente.nova 2)
    [Transacao.deposito 100, Transacao.saque 50]
    [Transacao.saque 500, Transacao.saque 500] (by decide) (by decide)

/-- Claim C6: on a checking account, a positive withdrawal amount above the
configured `limite` yields exactly `excedeLimite` with the account
unchanged, for every balance and every history — so the flat-limit gate
fires before the withdrawal-count gate and the available-funds gate. -/
theorem claim_C6_limite_plano_prioritario (cc : ContaCorrente) (valor : Int)
    (h1 : 0 < valor) (h2 : cc.limite < valor) :
    ContaCorrente.sacar cc valor = (Motivo.excedeLimite, cc) := by
  unfold ContaCorrente.sacar
  rw [if_neg (by omega), if_pos h2]

/-- Witness for C6 at the spec's concrete input: withdrawing 600 from a
default checking account holding 10000 is rejected by the flat limit. -/
theorem claim_C6_limite_plano_prioritario_witness :
    ContaCorrente.sacar contaSaldoDezMil 600 = (Motivo.excedeLimite, contaSaldoDezMil) :=
  claim_C6_limite_plano_prioritario contaSaldoDezMil 600 (by decide) (by decide)

/-- Claim C7: for every applied withdrawal transaction, either the
withdrawal is rejected and the account (balance and history) is exactly
unchanged, or it succeeds and exactly one `"Saque"` entry is appended —
stated for both account variants; the two disjuncts are mutually exclusive
because they fix the success flag to opposite values. -/
theorem claim_C7_rejeicao_ou_registro (c : Conta) (cc : ContaCorrente) (valor : Int) :
    ((((Conta.sacar c valor).1).sucesso = false ∧ Saque.registrar valor c = c) ∨
      (((Conta.sacar c valor).1).sucesso = true ∧
        (Saque.registrar valor c).historico =
          c.historico ++ [{ tipo := "Saque", valor := valor }])) ∧
    ((((ContaCorrente.sacar cc valor).1).sucesso = false ∧
        Saque.registrarCC valor cc = cc) ∨
      (((ContaCorrente.sacar cc valor).1).sucesso = true ∧
        (Saque.registrarCC valor cc).historico =
          cc.historico ++ [{ tipo := "Saque", valor := valor }])) := by
  constructor
  · rcases hs : ((Conta.sacar c valor).1).sucesso with _ | _
    · refine Or.inl ⟨rfl, ?_⟩
      simp only [Saque.registrar, hs, Bool.false_eq_true, if_false]
      exact Conta.sacar_base_falha c valor hs
    · refine Or.inr ⟨rfl, ?_⟩
      simp only [Saque.registrar, hs, if_true]
      show adicionar_transacao ((Conta.sacar c valor).2).historico (.saque valor) = _
      rw [Conta.sacar_base_historico]
      rfl
  · rcases hs : ((ContaCorrente.sacar cc valor).1).sucesso with _ | _
    · refine Or.inl ⟨rfl, ?_⟩
      simp only [Saque.registrarCC, hs, Bool.false_eq_true, if_false]
      exact ContaCorrente.sacar_falha cc valor hs
    · refine Or.inr ⟨rfl, ?_⟩
      simp only [Saque.registrarCC, hs, if_true]
      show adicionar_transacao ((ContaCorrente.sacar cc valor).2).historico (.saque valor) = _
      rw [ContaCorrente.sacar_historico]
      rfl

/-- Claim C8: after any sequence of menu operations starting from the empty
registries, the account numbers in the `contas` registry are exactly
1, 2, ..., n in creation order — each account was numbered
`len(contas) + 1` at its creation, whoever the owning client is. -/
theorem claim_C8_numeracao_sequencial (ops : List Op) :
    (executar ops).contas.map (fun conta => conta.numero) =
      List.range' 1 (executar ops).contas.length :=
  numeros_executar_aux ops { clientes := [], contas := [] } rfl

/-- Claim C9: the registry `contas` has type `List ContaCorrente` — the
only account-creation path is `criar_conta`, which always builds the
checking variant — and after any sequence of menu operations every
registered account carries the default parameters `limite = 500` and
`limite_saques = 3`. -/
theorem claim_C9_somente_conta_corrente (ops : List Op) :
    (((executar ops).contas.all
      fun conta => conta.limite == 500 && conta.limite_saques == 3)) = true :=
  corrente_executar_aux ops { clientes := [], contas := [] } rfl

/-- Claim C10: a freshly created account (either variant) has balance 0 and
an empty history. -/
theorem claim_C10_conta_nova_zerada (numero : Nat) :
    (ContaCorrente.nova numero).saldo = 0 ∧
    (ContaCorrente.nova numero).historico = [] ∧
    (Conta.nova numero).saldo = 0 ∧
    (Conta.nova numero).historico = [] :=
  ⟨rfl, rfl, rfl, rfl⟩

end SistemaBanco
